import Mathlib

/-!
Verification development for the data layer of the antipeople-v2 repository
(file src/database.py).  The PostgreSQL-backed repository is shallowly
embedded: the three tables are lists of row structures, the SQL statements
of each repository method are translated statement by statement into pure
state-passing functions, and the retry-wrapped executor is modelled as a
function of the per-attempt infrastructure outcome.

Modelling conventions, each noted where it is used:
* timestamps: CURRENT_TIMESTAMP / datetime.now() is modelled by a strictly
  increasing Nat clock carried in the state (one tick per insert);
* SQL NULL for an empty array_agg is modelled by Option;
* array_agg(DISTINCT x) is modelled by List.dedup of the aggregated values
  (the claims under study are order-independent, so the particular order
  of the deduplicated list is never relied upon);
* a Python exception raised inside an operation is modelled by Except;
* the unused SERIAL id column of contact_info and documents is omitted:
  no repository query ever reads it.
-/

/-- A row of the persons table (src/database.py lines 89-105). -/
structure PersonRow where
  id : Nat
  full_name : String
  father_name : String
  mother_name : String
  dob : String
  gender : String
  nid : String
  voter_no : Option String
  permanent_address : String
  present_address : String
  image_data : Option String
  description : Option String
  created_at : Nat
deriving DecidableEq

/-- A row of the contact_info table (lines 108-115); the SERIAL id column is
never read by any query and is omitted. -/
structure ContactRow where
  person_id : Nat
  type : String
  value : String
deriving DecidableEq

/-- A row of the documents table (lines 118-125); the SERIAL id column is
never read by any query and is omitted. -/
structure DocumentRow where
  person_id : Nat
  url : String
  type : String
deriving DecidableEq

/-- The backing store: the three tables, the persons id sequence, and a
strictly increasing clock modelling datetime.now(). -/
structure DBState where
  persons : List PersonRow
  contact_info : List ContactRow
  documents : List DocumentRow
  next_person_id : Nat
  clock : Nat
deriving DecidableEq

/-- The dict payload handed to add_record / update_record by the UI layer.
pdf_urls is an Option because update_record tests membership of the key
(line 321: if 'pdf_urls' in updated_data); the four contact lists are read
with .get(key, []) everywhere, so absence and [] coincide for them. -/
structure RecordInput where
  full_name : String
  father_name : String
  mother_name : String
  dob : String
  gender : String
  nid : String
  voter_no : Option String
  permanent_address : String
  present_address : String
  image_data : Option String
  description : Option String
  mobile_numbers : List String
  whatsapp_numbers : List String
  facebook_links : List String
  website_links : List String
  pdf_urls : Option (List String)
deriving DecidableEq

/-- The dict returned by the retrieval queries (SELECT p.* plus the five
aggregated child lists). -/
structure OutRecord where
  id : Nat
  full_name : String
  father_name : String
  mother_name : String
  dob : String
  gender : String
  nid : String
  voter_no : Option String
  permanent_address : String
  present_address : String
  image_data : Option String
  description : Option String
  created_at : Nat
  mobile_numbers : List String
  whatsapp_numbers : List String
  facebook_links : List String
  website_links : List String
  pdf_urls : List String
deriving DecidableEq

/-- Python exceptions that the repository operations themselves can raise. -/
inductive PyErr where
  /-- list(filter(None, None)) on a NULL aggregate (get_record, lines 249-252). -/
  | typeError
  /-- foreign key violation on inserting a child row for a missing person. -/
  | fkViolation
deriving DecidableEq

/-- Errors escaping execute_with_retry to a repository method. -/
inductive DbError where
  /-- psycopg2.OperationalError / InterfaceError, after retries exhausted. -/
  | transient (e : Nat)
  /-- any other infrastructure exception (raised immediately, no retry). -/
  | fatal (e : Nat)
  /-- an exception raised by the operation body itself. -/
  | pyErr (e : PyErr)
deriving DecidableEq

/-- Python truthiness test applied to the image payload:
Json(record.get('image_data')) if record.get('image_data') else None
(lines 137 and 262); the falsy empty payload is stored as NULL. -/
def pyTruthyJson : Option String → Option String
  | none => none
  | some s => if s = "" then none else some s

/-- list(filter(None, xs)): drop falsy (empty-string) values. -/
def filterTruthy (xs : List String) : List String :=
  xs.filter (fun s => s != "")

/-- The contact_info rows inserted for one kind (type, list of values). -/
def rowsOf (pid : Nat) (tp : String) (vals : List String) : List ContactRow :=
  vals.map (fun v => ContactRow.mk pid tp v)

/-- All contact_info rows inserted for a payload, in source insertion order
(mobile, whatsapp, facebook, website; lines 156-179 / 294-318). -/
def newContactRows (pid : Nat) (r : RecordInput) : List ContactRow :=
  rowsOf pid "mobile" r.mobile_numbers ++ rowsOf pid "whatsapp" r.whatsapp_numbers ++
    rowsOf pid "facebook" r.facebook_links ++ rowsOf pid "website" r.website_links

/-- The documents rows inserted for a list of pdf urls (lines 182-186 / 323-327). -/
def newDocumentRows (pid : Nat) (urls : List String) : List DocumentRow :=
  urls.map (fun u => DocumentRow.mk pid u "pdf")

/-- The deduplicated values of one contact kind of one person:
array_agg(DISTINCT ci.value) FILTER (WHERE ci.type = tp) over the join. -/
def contactValuesOf (st : DBState) (pid : Nat) (tp : String) : List String :=
  ((st.contact_info.filter (fun c => c.person_id == pid && c.type == tp)).map
    (fun c => c.value)).dedup

/-- The aggregate as SQL returns it: NULL (none) when no row matched. -/
def aggContacts (st : DBState) (pid : Nat) (tp : String) : Option (List String) :=
  let vs := contactValuesOf st pid tp
  if vs.isEmpty then none else some vs

/-- array_agg(DISTINCT d.url) FILTER (WHERE d.type = 'pdf'), NULL when empty. -/
def aggDocs (st : DBState) (pid : Nat) : Option (List String) :=
  let vs := ((st.documents.filter (fun d => d.person_id == pid && d.type == "pdf")).map
    (fun d => d.url)).dedup
  if vs.isEmpty then none else some vs

/-- ORDER BY p.created_at DESC. -/
def createdDescRel (a b : PersonRow) : Prop := b.created_at ≤ a.created_at

instance : DecidableRel createdDescRel := fun _ _ => Nat.decLe _ _

instance : IsTotal PersonRow createdDescRel :=
  ⟨fun a b => Nat.le_total b.created_at a.created_at⟩

instance : IsTrans PersonRow createdDescRel :=
  ⟨fun _ _ _ h1 h2 => Nat.le_trans h2 h1⟩

/-- The row dict built by get_all_records / search_records (lines 216-223 and
356-362): every aggregate is guarded with `or []` there, then filtered. -/
def buildRow (st : DBState) (p : PersonRow) : OutRecord where
  id := p.id
  full_name := p.full_name
  father_name := p.father_name
  mother_name := p.mother_name
  dob := p.dob
  gender := p.gender
  nid := p.nid
  voter_no := p.voter_no
  permanent_address := p.permanent_address
  present_address := p.present_address
  image_data := p.image_data
  description := p.description
  created_at := p.created_at
  mobile_numbers := filterTruthy ((aggContacts st p.id "mobile").getD [])
  whatsapp_numbers := filterTruthy ((aggContacts st p.id "whatsapp").getD [])
  facebook_links := filterTruthy ((aggContacts st p.id "facebook").getD [])
  website_links := filterTruthy ((aggContacts st p.id "website").getD [])
  pdf_urls := filterTruthy ((aggDocs st p.id).getD [])

/-- PostgreSQL LIKE pattern matching over explicit character lists:
% matches any sequence (declaratively: the rest of the pattern matches
some suffix), _ any single character, backslash escapes the next pattern
character.  A pattern ending in a dangling escape is an error in
PostgreSQL; it is modelled as matching nothing, which is observationally
identical for search_records (the error is caught and [] returned, exactly
the result of no row matching). -/
def likeMatch : List Char → List Char → Bool
  | [], s => s.isEmpty
  | p :: ps, s =>
    if p = '%' then
      (List.range (s.length + 1)).any (fun n => likeMatch ps (s.drop n))
    else
      match s with
      | [] => false
      | c :: s2 =>
        if p = '\\' then
          match ps with
          | [] => false
          | p2 :: ps2 => p2 == c && likeMatch ps2 s2
        else if p = '_' then likeMatch ps s2
        else p == c && likeMatch ps s2

/-- Lowercasing of a character list; models PostgreSQL lower() for the
ASCII range, which is all the repository data under study uses. -/
def lowerList (l : List Char) : List Char := l.map Char.toLower

/-- ILIKE: case-insensitive LIKE (both sides lowercased). -/
def ilike (pat : String) (s : String) : Bool :=
  likeMatch (lowerList pat.data) (lowerList s.data)

/-- The scalar UPDATE of update_record (lines 265-292): every column except
id and created_at is rewritten. -/
def updateScalars (p : PersonRow) (r : RecordInput) : PersonRow where
  id := p.id
  full_name := r.full_name
  father_name := r.father_name
  mother_name := r.mother_name
  dob := r.dob
  gender := r.gender
  nid := r.nid
  voter_no := r.voter_no
  permanent_address := r.permanent_address
  present_address := r.present_address
  image_data := pyTruthyJson r.image_data
  description := r.description
  created_at := p.created_at

/-- The person row INSERTed by add_record (lines 140-153): the generated
id, the payload's scalar columns, created_at := now(). -/
def newPerson (st : DBState) (r : RecordInput) : PersonRow where
  id := st.next_person_id
  full_name := r.full_name
  father_name := r.father_name
  mother_name := r.mother_name
  dob := r.dob
  gender := r.gender
  nid := r.nid
  voter_no := r.voter_no
  permanent_address := r.permanent_address
  present_address := r.present_address
  image_data := pyTruthyJson r.image_data
  description := r.description
  created_at := st.clock

/-- Inner operation of add_record (lines 135-188): one person INSERT with
created_at := now(), then the child INSERTs; returns the generated id. -/
def add_record_op (st : DBState) (r : RecordInput) : DBState × Nat :=
  ({ persons := st.persons ++ [newPerson st r],
     contact_info := st.contact_info ++ newContactRows st.next_person_id r,
     documents := st.documents ++ newDocumentRows st.next_person_id (r.pdf_urls.getD []),
     next_person_id := st.next_person_id + 1,
     clock := st.clock + 1 }, st.next_person_id)

/-- Inner operation of get_record (lines 232-255).  The four contact
aggregates are post-processed with list(filter(None, ...)) WITHOUT the
`or []` guard, so a NULL aggregate (person with no contact rows of that
kind) raises TypeError; only pdf_urls is guarded (line 253). -/
def get_record_op (st : DBState) (rid : Nat) : Except PyErr (Option OutRecord) :=
  match st.persons.find? (fun p => p.id == rid) with
  | none => .ok none
  | some p =>
    match aggContacts st rid "mobile", aggContacts st rid "whatsapp",
          aggContacts st rid "facebook", aggContacts st rid "website" with
    | some ms, some ws, some fb, some wb =>
      .ok (some
        { id := p.id, full_name := p.full_name, father_name := p.father_name,
          mother_name := p.mother_name, dob := p.dob, gender := p.gender,
          nid := p.nid, voter_no := p.voter_no,
          permanent_address := p.permanent_address,
          present_address := p.present_address, image_data := p.image_data,
          description := p.description, created_at := p.created_at,
          mobile_numbers := filterTruthy ms, whatsapp_numbers := filterTruthy ws,
          facebook_links := filterTruthy fb, website_links := filterTruthy wb,
          pdf_urls := filterTruthy ((aggDocs st rid).getD []) })
    | _, _, _, _ => .error .typeError

/-- Inner operation of get_all_records (lines 198-223). -/
def get_all_records_op (st : DBState) : List OutRecord :=
  (List.insertionSort createdDescRel st.persons).map (buildRow st)

/-- Inner operation of search_records (lines 338-362):
WHERE p.full_name ILIKE '%' || query || '%', same aggregation and ordering. -/
def search_records_op (st : DBState) (q : String) : List OutRecord :=
  (List.insertionSort createdDescRel
    (st.persons.filter (fun p => ilike ("%" ++ q ++ "%") p.full_name))).map (buildRow st)

/-- Inner operation of update_record (lines 260-329): rewrite the scalar
columns of the matching person row, DELETE + reinsert the contact rows, and
DELETE + reinsert the document rows only when the pdf_urls key is present.
Inserting a child row for a non-existent person violates the foreign key. -/
def update_record_op (st : DBState) (rid : Nat) (r : RecordInput) :
    Except PyErr DBState :=
  let found := st.persons.any (fun p => p.id == rid)
  let persons2 := st.persons.map (fun p => if p.id == rid then updateScalars p r else p)
  let contacts2 := st.contact_info.filter (fun c => !(c.person_id == rid))
  let newCs := newContactRows rid r
  if !found && !newCs.isEmpty then .error .fkViolation
  else
    let st1 : DBState :=
      { st with persons := persons2, contact_info := contacts2 ++ newCs }
    match r.pdf_urls with
    | none => .ok st1
    | some urls =>
      if !found && !urls.isEmpty then .error .fkViolation
      else .ok { st1 with
        documents := (st.documents.filter (fun d => !(d.person_id == rid))) ++
          newDocumentRows rid urls }

/-- The store a successful update of an existing person leaves behind:
scalars rewritten in place, contact rows deleted and reinserted, document
rows deleted and reinserted only when the pdf_urls key is present. -/
def updatedState (st : DBState) (rid : Nat) (r : RecordInput) : DBState where
  persons := st.persons.map fun p => if p.id == rid then updateScalars p r else p
  contact_info :=
    st.contact_info.filter (fun c => !(c.person_id == rid)) ++ newContactRows rid r
  documents :=
    match r.pdf_urls with
    | none => st.documents
    | some urls =>
      st.documents.filter (fun d => !(d.person_id == rid)) ++ newDocumentRows rid urls
  next_person_id := st.next_person_id
  clock := st.clock

/-- Inner operation of delete_record (lines 372-378). -/
def delete_record_op (st : DBState) (rid : Nat) : DBState :=
  { st with
    contact_info := st.contact_info.filter (fun c => !(c.person_id == rid)),
    documents := st.documents.filter (fun d => !(d.person_id == rid)),
    persons := st.persons.filter (fun p => !(p.id == rid)) }

/-- Inner operation of delete_all_records (lines 388-394). -/
def delete_all_records_op (st : DBState) : DBState :=
  { st with persons := [], contact_info := [], documents := [] }

/-- Inner operation of create_tables (lines 83-125): all three tables are
dropped (DROP TABLE IF EXISTS ... CASCADE, lines 85-87) and recreated, so
every row is lost and the id sequence restarts. -/
def create_tables_op (st : DBState) : DBState :=
  { persons := [], contact_info := [], documents := [],
    next_person_id := 1, clock := st.clock }

/-! Success-path view of the public methods: the behaviour when the
infrastructure raises nothing, including each method's own try/except
wrapper (sentinel conversion).  get_record has no such wrapper. -/

/-- add_record (lines 134-194), success path of the executor. -/
def add_record (st : DBState) (r : RecordInput) : DBState × Option Nat :=
  let res := add_record_op st r
  (res.1, some res.2)

/-- get_record (lines 231-257): no try/except, the operation's own
exception escapes to the caller. -/
def get_record (st : DBState) (rid : Nat) : Except PyErr (Option OutRecord) :=
  get_record_op st rid

/-- get_all_records (lines 196-229), success path. -/
def get_all_records (st : DBState) : List OutRecord :=
  get_all_records_op st

/-- search_records (lines 337-368), success path. -/
def search_records (st : DBState) (q : String) : List OutRecord :=
  search_records_op st q

/-- update_record (lines 259-335): an exception from the operation is
caught and converted to false, the transaction having been rolled back. -/
def update_record (st : DBState) (rid : Nat) (r : RecordInput) : DBState × Bool :=
  match update_record_op st rid r with
  | .ok st2 => (st2, true)
  | .error _ => (st, false)

/-- delete_record (lines 370-384), success path. -/
def delete_record (st : DBState) (rid : Nat) : DBState × Bool :=
  (delete_record_op st rid, true)

/-- delete_all_records (lines 386-400), success path. -/
def delete_all_records (st : DBState) : DBState × Bool :=
  (delete_all_records_op st, true)

/-- create_tables (lines 81-132), success path. -/
def create_tables (st : DBState) : DBState :=
  create_tables_op st

/-! Executor view: execute_with_retry (lines 49-79) with the per-attempt
infrastructure outcome made explicit. -/

/-- What the infrastructure does on one attempt: work normally, raise a
transient (Operational/Interface) error, or raise any other error. -/
inductive Infra where
  | fine
  | transient (e : Nat)
  | fatal (e : Nat)
deriving DecidableEq

/-- Observable outcome of one execute_with_retry call: the returned or
raised value, and how many commits, rollbacks and one-second sleeps ran. -/
structure RunResult (α : Type) where
  result : Except DbError α
  commits : Nat
  rollbacks : Nat
  sleeps : Nat

/-- The retry loop of execute_with_retry, by remaining attempts.  The
operation is deterministic between attempts (each failed attempt is rolled
back), so it is passed as its one result.  attempt + remaining is the
constant max_retries, hence the source's attempt == max_retries - 1 test
is remaining = 1.  Fuel 0 is the source's implicit None return when the
loop body never runs; it is unreachable for max_retries ≥ 1. -/
def execGo {α : Type} (env : Nat → Infra) (op : Except PyErr α) :
    Nat → Nat → RunResult α
  | _, 0 => ⟨.error (.transient 0), 0, 0, 0⟩
  | attempt, rem + 1 =>
    match env attempt with
    | .fine =>
      match op with
      | .ok a => ⟨.ok a, 1, 0, 0⟩
      | .error e => ⟨.error (.pyErr e), 0, 1, 0⟩
    | .fatal e => ⟨.error (.fatal e), 0, 1, 0⟩
    | .transient e =>
      if rem = 0 then ⟨.error (.transient e), 0, 1, 0⟩
      else
        let rest := execGo env op (attempt + 1) rem
        ⟨rest.result, rest.commits, rest.rollbacks + 1, rest.sleeps + 1⟩

/-- execute_with_retry (lines 49-79). -/
def execute_with_retry {α : Type} (env : Nat → Infra) (op : Except PyErr α)
    (maxRetries : Nat) : RunResult α :=
  execGo env op 0 maxRetries

/-! The public methods as calls through the executor, with each method's
own try/except.  A .error result is an exception escaping to the caller;
the six catching methods always return .ok (their sentinel on failure). -/

/-- add_record through the executor: errors caught, null sentinel. -/
def add_record_call (env : Nat → Infra) (st : DBState) (r : RecordInput) :
    Except DbError (Option Nat) :=
  match (execute_with_retry env (.ok (add_record_op st r)) 3).result with
  | .ok res => .ok (some res.2)
  | .error _ => .ok none

/-- get_all_records through the executor: errors caught, empty-list sentinel. -/
def get_all_records_call (env : Nat → Infra) (st : DBState) :
    Except DbError (List OutRecord) :=
  match (execute_with_retry env (.ok (get_all_records_op st)) 3).result with
  | .ok l => .ok l
  | .error _ => .ok []

/-- get_record through the executor: NO try/except in the source, the
executor's exception is the caller's. -/
def get_record_call (env : Nat → Infra) (st : DBState) (rid : Nat) :
    Except DbError (Option OutRecord) :=
  (execute_with_retry env (get_record_op st rid) 3).result

/-- search_records through the executor: errors caught, empty-list sentinel. -/
def search_records_call (env : Nat → Infra) (st : DBState) (q : String) :
    Except DbError (List OutRecord) :=
  match (execute_with_retry env (.ok (search_records_op st q)) 3).result with
  | .ok l => .ok l
  | .error _ => .ok []

/-- update_record through the executor: errors caught, false sentinel. -/
def update_record_call (env : Nat → Infra) (st : DBState) (rid : Nat)
    (r : RecordInput) : Except DbError Bool :=
  match (execute_with_retry env ((update_record_op st rid r).map (fun _ => true)) 3).result with
  | .ok b => .ok b
  | .error _ => .ok false

/-- delete_record through the executor: errors caught, false sentinel. -/
def delete_record_call (env : Nat → Infra) (st : DBState) (rid : Nat) :
    Except DbError Bool :=
  match (execute_with_retry env (.ok (delete_record_op st rid, true)) 3).result with
  | .ok res => .ok res.2
  | .error _ => .ok false

/-- delete_all_records through the executor: errors caught, false sentinel. -/
def delete_all_records_call (env : Nat → Infra) (st : DBState) :
    Except DbError Bool :=
  match (execute_with_retry env (.ok (delete_all_records_op st, true)) 3).result with
  | .ok res => .ok res.2
  | .error _ => .ok false

/-! Specification-side definitions (from the spec's words, for comparison
with the behaviour of the embedded code). -/

/-- q occurs in s as a contiguous substring. -/
def substrB (q : List Char) : List Char → Bool
  | [] => q.isEmpty
  | c :: s => q.isPrefixOf (c :: s) || substrB q s

/-- Case-insensitive substring containment, the spec's search criterion. -/
def containsCI (q s : String) : Bool :=
  substrB (lowerList q.data) (lowerList s.data)

/-- The query holds none of the LIKE metacharacters. -/
def noMeta (q : String) : Prop :=
  ∀ c ∈ q.data, c ≠ '%' ∧ c ≠ '_' ∧ c ≠ '\\'

instance (q : String) : Decidable (noMeta q) := by
  unfold noMeta; infer_instance

/-- Well-formedness of a store: ids below the sequence value and the two
foreign keys (every child row references an existing person), exactly the
invariants the schema of create_tables enforces. -/
def WF (st : DBState) : Prop :=
  (∀ p ∈ st.persons, p.id < st.next_person_id) ∧
  (∀ c ∈ st.contact_info, ∃ p ∈ st.persons, p.id = c.person_id) ∧
  (∀ d ∈ st.documents, ∃ p ∈ st.persons, p.id = d.person_id)

instance (st : DBState) : Decidable (WF st) := by
  unfold WF; infer_instance

/-- A payload the UI layer can actually submit, with the extra conditions
under which retrieval is lossless: at least one contact value of each kind
(otherwise get_record raises), no falsy (empty-string) values (those are
dropped by list(filter(None, ...))), and a truthy-or-absent image payload. -/
def ValidPayload (r : RecordInput) : Prop :=
  r.mobile_numbers ≠ [] ∧ r.whatsapp_numbers ≠ [] ∧
  r.facebook_links ≠ [] ∧ r.website_links ≠ [] ∧
  (∀ v ∈ r.mobile_numbers, v ≠ "") ∧ (∀ v ∈ r.whatsapp_numbers, v ≠ "") ∧
  (∀ v ∈ r.facebook_links, v ≠ "") ∧ (∀ v ∈ r.website_links, v ≠ "") ∧
  (∀ v ∈ r.pdf_urls.getD [], v ≠ "") ∧
  pyTruthyJson r.image_data = r.image_data

instance (r : RecordInput) : Decidable (ValidPayload r) := by
  unfold ValidPayload; infer_instance

/-- The empty store right after create_tables on a fresh database. -/
def initialState : DBState :=
  { persons := [], contact_info := [], documents := [],
    next_person_id := 1, clock := 0 }

/-- A minimal well-formed payload used for concrete evaluations. -/
def basePayload : RecordInput :=
  { full_name := "A", father_name := "F", mother_name := "M", dob := "2000-01-01",
    gender := "Male", nid := "N1", voter_no := none, permanent_address := "P",
    present_address := "Q", image_data := none, description := none,
    mobile_numbers := ["m"], whatsapp_numbers := ["w"], facebook_links := ["f"],
    website_links := ["s"], pdf_urls := some ["u"] }

/-- Payload submitting the mobile number "1" twice. -/
def dupPayload : RecordInput := { basePayload with mobile_numbers := ["1", "1"] }

/-- Payload with a mobile number but no whatsapp/facebook/website entries. -/
def mobileOnlyPayload : RecordInput :=
  { basePayload with whatsapp_numbers := [], facebook_links := [], website_links := [] }

/-- Payload named axb, for the wildcard search counterexample. -/
def axbPayload : RecordInput := { basePayload with full_name := "axb" }

/-- Payload with no mobile numbers. -/
def noMobilePayload : RecordInput := { basePayload with mobile_numbers := [] }

/-- Payload whose child lists are all empty and whose pdf_urls key is absent. -/
def emptyChildrenPayload : RecordInput :=
  { basePayload with
      mobile_numbers := [], whatsapp_numbers := [],
      facebook_links := [], website_links := [], pdf_urls := none }

/-- Store holding only the duplicate-mobile person. -/
def stDup : DBState := (add_record initialState dupPayload).1

/-- Store holding only the mobile-only person. -/
def stMobileOnly : DBState := (add_record initialState mobileOnlyPayload).1

/-- Store holding only the person named axb. -/
def stAxb : DBState := (add_record initialState axbPayload).1

/-- Store holding only the base person. -/
def stBase : DBState := (add_record initialState basePayload).1

/-- Three successive inserts into a fresh store. -/
def addedThree (rA rB rC : RecordInput) : DBState :=
  (add_record (add_record (add_record initialState rA).1 rB).1 rC).1

/-- Store after inserting noMobilePayload, then basePayload twice. -/
def stThree : DBState := addedThree noMobilePayload basePayload basePayload

/-- An update payload differing from basePayload in every mutable field. -/
def updPayload : RecordInput :=
  { full_name := "B", father_name := "F2", mother_name := "M2", dob := "2001-02-02",
    gender := "Female", nid := "N2", voter_no := some "V2", permanent_address := "P2",
    present_address := "Q2", image_data := some "img", description := some "d2",
    mobile_numbers := ["m2"], whatsapp_numbers := ["w2"], facebook_links := ["f2"],
    website_links := ["s2"], pdf_urls := some ["u2"] }

/-- The update payload with the pdf_urls key absent from the dict. -/
def noPdfUpdate : RecordInput := { updPayload with pdf_urls := none }

/-- A literal store with rows in all three tables, clock 5. -/
def stPopulated : DBState :=
  { persons := [{ id := 1, full_name := "X", father_name := "XF", mother_name := "XM",
                  dob := "1999-09-09", gender := "Other", nid := "N9", voter_no := none,
                  permanent_address := "PA", present_address := "PB",
                  image_data := none, description := none, created_at := 3 }],
    contact_info := [{ person_id := 1, type := "mobile", value := "777" }],
    documents := [{ person_id := 1, url := "u1", type := "pdf" }],
    next_person_id := 2, clock := 5 }

/-- An out-record placeholder for getD. -/
def emptyOut : OutRecord :=
  { id := 0, full_name := "", father_name := "", mother_name := "", dob := "",
    gender := "", nid := "", voter_no := none, permanent_address := "",
    present_address := "", image_data := none, description := none, created_at := 0,
    mobile_numbers := [], whatsapp_numbers := [], facebook_links := [],
    website_links := [], pdf_urls := [] }

/-- The oldest row returned by get_all_records on stThree (the person with
no mobile numbers). -/
def outNoMobile : OutRecord := (get_all_records stThree).getD 2 emptyOut

/-- The single row returned by get_all_records on stBase. -/
def outBase : OutRecord := (get_all_records stBase).getD 0 emptyOut

/-- The infrastructure never failing. -/
def envFine : Nat → Infra := fun _ => Infra.fine

/-- The infrastructure raising a transient error on every attempt. -/
def envDown : Nat → Infra := fun n => Infra.transient n

/-! Pattern-matching theory: LIKE with a %...% pattern built from a
metacharacter-free query is exactly substring containment. -/

theorem likeMatch_nil (s : List Char) : likeMatch [] s = s.isEmpty := rfl

theorem likeMatch_pct (ps s : List Char) :
    likeMatch ('%' :: ps) s =
      (List.range (s.length + 1)).any (fun n => likeMatch ps (s.drop n)) := by
  cases s with
  | nil => rw [likeMatch.eq_def]; simp
  | cons c s2 => rw [likeMatch.eq_def]; simp

theorem likeMatch_cons_nil (p : Char) (ps : List Char) (hp : p ≠ '%') :
    likeMatch (p :: ps) [] = false := by
  rw [likeMatch.eq_def]
  simp only [if_neg hp]

theorem likeMatch_cons_cons (p : Char) (ps : List Char) (c : Char) (s : List Char)
    (hp : p ≠ '%') (hb : p ≠ '\\') (hu : p ≠ '_') :
    likeMatch (p :: ps) (c :: s) = (p == c && likeMatch ps s) := by
  rw [likeMatch.eq_def]
  simp only [if_neg hp, if_neg hb, if_neg hu]

theorem nil_isPrefixOf (s : List Char) : ([] : List Char).isPrefixOf s = true := by
  cases s <;> rfl

theorem isPrefixOf_nil (q : List Char) : q.isPrefixOf [] = q.isEmpty := by
  cases q <;> rfl

theorem likeMatch_pct_all (s : List Char) : likeMatch ['%'] s = true := by
  rw [likeMatch_pct, List.any_eq_true]
  refine ⟨s.length, by simp [List.mem_range], ?_⟩
  rw [List.drop_length, likeMatch_nil]
  rfl

theorem likeMatch_pct_iff (ps s : List Char) :
    likeMatch ('%' :: ps) s = true ↔ ∃ n, likeMatch ps (s.drop n) = true := by
  rw [likeMatch_pct, List.any_eq_true]
  constructor
  · rintro ⟨n, _, hn⟩; exact ⟨n, hn⟩
  · rintro ⟨n, hn⟩
    by_cases hle : n ≤ s.length
    · exact ⟨n, by simp [List.mem_range]; omega, hn⟩
    · refine ⟨s.length, by simp [List.mem_range], ?_⟩
      rw [List.drop_length]
      rwa [List.drop_eq_nil_of_le (by omega)] at hn

theorem likeMatch_lit (lit : List Char)
    (hl : ∀ c ∈ lit, c ≠ '%' ∧ c ≠ '_' ∧ c ≠ '\\') (s : List Char) :
    likeMatch (lit ++ ['%']) s = true ↔ lit.isPrefixOf s = true := by
  induction lit generalizing s with
  | nil =>
    rw [List.nil_append, likeMatch_pct_all, nil_isPrefixOf]
  | cons p lit2 ih =>
    have hp := hl p (List.mem_cons_self p lit2)
    cases s with
    | nil =>
      rw [List.cons_append, likeMatch_cons_nil p _ hp.1]
      simp [List.isPrefixOf]
    | cons c s2 =>
      rw [List.cons_append, likeMatch_cons_cons p _ c s2 hp.1 hp.2.2 hp.2.1]
      have hpre : (p :: lit2).isPrefixOf (c :: s2) = (p == c && lit2.isPrefixOf s2) := rfl
      rw [hpre, Bool.and_eq_true, Bool.and_eq_true,
        ih (fun x hx => hl x (List.mem_cons_of_mem p hx)) s2]

theorem substrB_cons (q : List Char) (c : Char) (s : List Char) :
    substrB q (c :: s) = (q.isPrefixOf (c :: s) || substrB q s) := rfl

theorem substrB_iff (q s : List Char) :
    substrB q s = true ↔ ∃ n, q.isPrefixOf (s.drop n) = true := by
  induction s with
  | nil =>
    show q.isEmpty = true ↔ _
    constructor
    · intro h; exact ⟨0, by rw [List.drop_nil, isPrefixOf_nil]; exact h⟩
    · rintro ⟨n, hn⟩; rwa [List.drop_nil, isPrefixOf_nil] at hn
  | cons c s2 ih =>
    rw [substrB_cons, Bool.or_eq_true, ih]
    constructor
    · rintro (h | ⟨n, hn⟩)
      · exact ⟨0, h⟩
      · exact ⟨n + 1, by rwa [List.drop_succ_cons]⟩
    · rintro ⟨n, hn⟩
      cases n with
      | zero => exact Or.inl hn
      | succ n2 => exact Or.inr ⟨n2, by rwa [List.drop_succ_cons] at hn⟩

theorem likeMatch_pct_lit_pct (lit : List Char)
    (hl : ∀ c ∈ lit, c ≠ '%' ∧ c ≠ '_' ∧ c ≠ '\\') (s : List Char) :
    likeMatch ('%' :: (lit ++ ['%'])) s = substrB lit s := by
  rw [← Bool.coe_iff_coe, likeMatch_pct_iff, substrB_iff]
  constructor
  · rintro ⟨n, hn⟩; exact ⟨n, (likeMatch_lit lit hl _).mp hn⟩
  · rintro ⟨n, hn⟩; exact ⟨n, (likeMatch_lit lit hl _).mpr hn⟩

theorem toLower_not_meta (c : Char) (h : c ≠ '%' ∧ c ≠ '_' ∧ c ≠ '\\') :
    Char.toLower c ≠ '%' ∧ Char.toLower c ≠ '_' ∧ Char.toLower c ≠ '\\' := by
  have hdef : Char.toLower c =
      if c.toNat ≥ 65 ∧ c.toNat ≤ 90 then Char.ofNat (c.toNat + 32) else c := rfl
  rw [hdef]
  by_cases hc : c.toNat ≥ 65 ∧ c.toNat ≤ 90
  · rw [if_pos hc]
    obtain ⟨h1, h2⟩ := hc
    generalize hg : c.toNat = n at h1 h2 ⊢
    interval_cases n <;> decide
  · rw [if_neg hc]; exact h

/-- On a metacharacter-free query the ILIKE test search_records performs is
exactly case-insensitive substring containment. -/
theorem ilike_eq_containsCI (q s : String) (h : noMeta q) :
    ilike ("%" ++ q ++ "%") s = containsCI q s := by
  unfold ilike containsCI lowerList
  have hdata : ("%" ++ q ++ "%").data = '%' :: (q.data ++ ['%']) := by
    rw [String.data_append, String.data_append]
    rfl
  rw [hdata, List.map_cons, List.map_append]
  have h1 : Char.toLower '%' = '%' := by decide
  have h2 : List.map Char.toLower ['%'] = ['%'] := by decide
  rw [h1, h2]
  apply likeMatch_pct_lit_pct
  intro c hc
  rw [List.mem_map] at hc
  obtain ⟨c0, hc0, rfl⟩ := hc
  exact toLower_not_meta c0 (h c0 hc0)

/-! Executor theory and the first group of claims. -/

theorem execGo_succ {α : Type} (env : Nat → Infra) (op : Except PyErr α) (attempt rem : Nat) :
    execGo env op attempt (rem + 1) =
      match env attempt with
      | .fine =>
        match op with
        | .ok a => ⟨.ok a, 1, 0, 0⟩
        | .error e => ⟨.error (.pyErr e), 0, 1, 0⟩
      | .fatal e => ⟨.error (.fatal e), 0, 1, 0⟩
      | .transient e =>
        if rem = 0 then ⟨.error (.transient e), 0, 1, 0⟩
        else
          let rest := execGo env op (attempt + 1) rem
          ⟨rest.result, rest.commits, rest.rollbacks + 1, rest.sleeps + 1⟩ := by
  rfl

/-- C5: behaviour of the retry-wrapped executor at its default bound of 3
total attempts: immediate success commits once and returns; a
non-transient failure rolls back and propagates with no retry; transient
failures retry the whole sequence with a one-second sleep between
attempts, up to 3 attempts, propagating the last transient error after
exhaustion. -/
theorem execute_with_retry_spec {α : Type} (env : Nat → Infra) (op : Except PyErr α) :
    (∀ a, env 0 = .fine → op = .ok a →
      execute_with_retry env op 3 = ⟨.ok a, 1, 0, 0⟩) ∧
    (∀ e, env 0 = .fine → op = .error e →
      execute_with_retry env op 3 = ⟨.error (.pyErr e), 0, 1, 0⟩) ∧
    (∀ e, env 0 = .fatal e →
      execute_with_retry env op 3 = ⟨.error (.fatal e), 0, 1, 0⟩) ∧
    (∀ e a, env 0 = .transient e → env 1 = .fine → op = .ok a →
      execute_with_retry env op 3 = ⟨.ok a, 1, 1, 1⟩) ∧
    (∀ e f, env 0 = .transient e → env 1 = .fatal f →
      execute_with_retry env op 3 = ⟨.error (.fatal f), 0, 2, 1⟩) ∧
    (∀ e1 e2 a, env 0 = .transient e1 → env 1 = .transient e2 → env 2 = .fine →
      op = .ok a → execute_with_retry env op 3 = ⟨.ok a, 1, 2, 2⟩) ∧
    (∀ e1 e2 e3, env 0 = .transient e1 → env 1 = .transient e2 → env 2 = .transient e3 →
      execute_with_retry env op 3 = ⟨.error (.transient e3), 0, 3, 2⟩) := by
  have step2 : ∀ e1, env 0 = .transient e1 →
      execute_with_retry env op 3 =
        ⟨(execGo env op 1 2).result, (execGo env op 1 2).commits,
          (execGo env op 1 2).rollbacks + 1, (execGo env op 1 2).sleeps + 1⟩ := by
    intro e1 h0
    show execGo env op 0 (2 + 1) = _
    rw [execGo_succ, h0]
    simp only [if_neg two_ne_zero]
  have step1 : ∀ e2, env 1 = .transient e2 →
      execGo env op 1 2 =
        ⟨(execGo env op 2 1).result, (execGo env op 2 1).commits,
          (execGo env op 2 1).rollbacks + 1, (execGo env op 2 1).sleeps + 1⟩ := by
    intro e2 h1
    show execGo env op 1 (1 + 1) = _
    rw [execGo_succ, h1]
    simp only [if_neg one_ne_zero]
  refine ⟨?_, ?_, ?_, ?_, ?_, ?_, ?_⟩
  · intro a h0 hop
    show execGo env op 0 (2 + 1) = _
    rw [execGo_succ, h0, hop]
  · intro e h0 hop
    show execGo env op 0 (2 + 1) = _
    rw [execGo_succ, h0, hop]
  · intro e h0
    show execGo env op 0 (2 + 1) = _
    rw [execGo_succ, h0]
  · intro e a h0 h1 hop
    rw [step2 e h0]
    have : execGo env op 1 2 = ⟨.ok a, 1, 0, 0⟩ := by
      show execGo env op 1 (1 + 1) = _
      rw [execGo_succ, h1, hop]
    rw [this]
  · intro e f h0 h1
    rw [step2 e h0]
    have : execGo env op 1 2 = ⟨.error (.fatal f), 0, 1, 0⟩ := by
      show execGo env op 1 (1 + 1) = _
      rw [execGo_succ, h1]
    rw [this]
  · intro e1 e2 a h0 h1 h2 hop
    rw [step2 e1 h0, step1 e2 h1]
    have : execGo env op 2 1 = ⟨.ok a, 1, 0, 0⟩ := by
      show execGo env op 2 (0 + 1) = _
      rw [execGo_succ, h2, hop]
    rw [this]
  · intro e1 e2 e3 h0 h1 h2
    rw [step2 e1 h0, step1 e2 h1]
    have : execGo env op 2 1 = ⟨.error (.transient e3), 0, 1, 0⟩ := by
      show execGo env op 2 (0 + 1) = _
      rw [execGo_succ, h2]
      simp
    rw [this]

/-- C5 witness: a fine first attempt returns the operation result after one
commit, no rollback, no sleep. -/
theorem execute_with_retry_spec_witness :
    execute_with_retry envFine (Except.ok (42 : Nat)) 3 =
      ⟨.ok 42, 1, 0, 0⟩ :=
  (execute_with_retry_spec envFine (Except.ok 42)).1 42 rfl rfl

/-- C2 counterexample: with a perfectly healthy infrastructure, getRecord
on a person that has a mobile number but no whatsapp number raises (the
NULL whatsapp aggregate meets list(filter(None, ...)) and the resulting
TypeError is not caught anywhere in get_record), so an exception escapes
the repository boundary. -/
theorem get_record_raises :
    get_record_call envFine stMobileOnly 1 = .error (.pyErr .typeError) := rfl

/-- C2 (amended): the six public methods that do wrap their body in
try/except (addRecord, getAllRecords, searchRecords, updateRecord,
deleteRecord, deleteAllRecords) never raise, for every infrastructure
behaviour, store and input; getRecord is the exception. -/
theorem repository_methods_total (env : Nat → Infra) (st : DBState)
    (r : RecordInput) (rid : Nat) (q : String) :
    (add_record_call env st r).isOk = true ∧
    (get_all_records_call env st).isOk = true ∧
    (search_records_call env st q).isOk = true ∧
    (update_record_call env st rid r).isOk = true ∧
    (delete_record_call env st rid).isOk = true ∧
    (delete_all_records_call env st).isOk = true := by
  refine ⟨?_, ?_, ?_, ?_, ?_, ?_⟩
  · unfold add_record_call
    cases (execute_with_retry env (.ok (add_record_op st r)) 3).result <;> rfl
  · unfold get_all_records_call
    cases (execute_with_retry env (.ok (get_all_records_op st)) 3).result <;> rfl
  · unfold search_records_call
    cases (execute_with_retry env (.ok (search_records_op st q)) 3).result <;> rfl
  · unfold update_record_call
    cases (execute_with_retry env ((update_record_op st rid r).map (fun _ => true)) 3).result <;> rfl
  · unfold delete_record_call
    cases (execute_with_retry env (.ok (delete_record_op st rid, true)) 3).result <;> rfl
  · unfold delete_all_records_call
    cases (execute_with_retry env (.ok (delete_all_records_op st, true)) 3).result <;> rfl

/-- C3 counterexample: a store holding contact_info and documents rows
loses all of them on a schema-manager run, because create_tables drops all
three tables, not only persons. -/
theorem create_tables_wipes_children :
    stPopulated.contact_info ≠ [] ∧ stPopulated.documents ≠ [] ∧
    (create_tables stPopulated).contact_info = [] ∧
    (create_tables stPopulated).documents = [] := by
  refine ⟨by decide, by decide, rfl, rfl⟩

/-- C3 (amended): every schema-manager run drops and recreates all three
tables unconditionally; no row of persons, contact_info or documents
survives, and the id sequence restarts. -/
theorem create_tables_drops_everything (st : DBState) :
    (create_tables st).persons = [] ∧
    (create_tables st).contact_info = [] ∧
    (create_tables st).documents = [] ∧
    (create_tables st).next_person_id = 1 := by
  exact ⟨rfl, rfl, rfl, rfl⟩

/-- C10: searching with the empty query string returns exactly what
getAllRecords returns: the %% pattern matches every full_name. -/
theorem search_empty_query (st : DBState) :
    search_records st "" = get_all_records st := by
  unfold search_records get_all_records search_records_op get_all_records_op
  have hf : st.persons.filter (fun p => ilike ("%" ++ "" ++ "%") p.full_name) = st.persons := by
    apply List.filter_eq_self.mpr
    intro p _
    unfold ilike
    have hd : ("%" ++ "" ++ "%").data = ['%', '%'] := by decide
    rw [hd]
    have hl : lowerList ['%', '%'] = '%' :: ['%'] := by decide
    rw [hl, likeMatch_pct_iff]
    exact ⟨0, by rw [List.drop_zero]; exact likeMatch_pct_all _⟩
  rw [hf]

/-- What a successful update leaves behind when the person exists. -/
theorem update_record_op_found (st : DBState) (rid : Nat) (r : RecordInput)
    (hf : (st.persons.any fun p => p.id == rid) = true) :
    update_record_op st rid r = .ok (updatedState st rid r) := by
  unfold update_record_op updatedState
  rw [hf]
  cases hp : r.pdf_urls with
  | none => simp
  | some urls => simp

/-- C8: updateRecord never changes the id or created_at column of any
person row. -/
theorem update_preserves_id_created_at (st : DBState) (rid : Nat) (r : RecordInput)
    (h : ∃ p ∈ st.persons, p.id = rid) :
    (update_record st rid r).1.persons.map (fun p => (p.id, p.created_at)) =
      st.persons.map (fun p => (p.id, p.created_at)) := by
  obtain ⟨p0, hp0, hid⟩ := h
  have hf : (st.persons.any fun p => p.id == rid) = true :=
    List.any_eq_true.mpr ⟨p0, hp0, by simpa using hid⟩
  unfold update_record
  rw [update_record_op_found st rid r hf]
  show (st.persons.map _).map _ = _
  rw [List.map_map]
  apply List.map_congr_left
  intro p _
  by_cases hpq : (p.id == rid) = true
  · simp [Function.comp, hpq, updateScalars]
  · simp [Function.comp, hpq]

/-- C8 witness at a concrete store. -/
theorem update_preserves_id_created_at_witness :
    (update_record stBase 1 updPayload).1.persons.map (fun p => (p.id, p.created_at)) =
      stBase.persons.map (fun p => (p.id, p.created_at)) :=
  update_preserves_id_created_at stBase 1 updPayload (by decide)

/-- C9: updating a non-existent id with a payload whose child lists are
empty (and pdf_urls empty or absent) succeeds vacuously. -/
theorem update_missing_id_vacuous (st : DBState) (rid : Nat) (r : RecordInput)
    (hnp : ∀ p ∈ st.persons, p.id ≠ rid)
    (hnc : ∀ c ∈ st.contact_info, c.person_id ≠ rid)
    (hnd : ∀ d ∈ st.documents, d.person_id ≠ rid)
    (hm : r.mobile_numbers = []) (hw : r.whatsapp_numbers = [])
    (hf : r.facebook_links = []) (hwl : r.website_links = [])
    (hp : r.pdf_urls = none ∨ r.pdf_urls = some []) :
    update_record st rid r = (st, true) := by
  have hfound : (st.persons.any fun p => p.id == rid) = false := by
    rw [List.any_eq_false]
    intro p hpm
    simpa using hnp p hpm
  have hnew : newContactRows rid r = [] := by
    simp [newContactRows, rowsOf, hm, hw, hf, hwl]
  have hpers : st.persons.map (fun p => if p.id == rid then updateScalars p r else p) =
      st.persons := by
    calc st.persons.map (fun p => if p.id == rid then updateScalars p r else p)
        = st.persons.map id :=
          List.map_congr_left (fun p hpm => by rw [if_neg (by simpa using hnp p hpm)]; rfl)
      _ = st.persons := List.map_id _
  have hcont : st.contact_info.filter (fun c => !(c.person_id == rid)) = st.contact_info := by
    apply List.filter_eq_self.mpr
    intro c hcm
    simpa using hnc c hcm
  have hdocs : st.documents.filter (fun d => !(d.person_id == rid)) = st.documents := by
    apply List.filter_eq_self.mpr
    intro d hdm
    simpa using hnd d hdm
  unfold update_record update_record_op
  rw [hfound, hnew]
  rcases hp with hp | hp <;>
    simp only [hp, hpers, hcont, hdocs, List.isEmpty_nil, Bool.not_true, Bool.and_false,
      Bool.not_false, Bool.true_and, if_false, Bool.false_eq_true, newDocumentRows,
      List.map_nil, List.append_nil]

/-- C9 witness: on the empty store, updating id 1 with the all-empty
payload returns true and leaves the store untouched. -/
theorem update_missing_id_vacuous_witness :
    update_record initialState 1 emptyChildrenPayload = (initialState, true) :=
  update_missing_id_vacuous initialState 1 emptyChildrenPayload
    (by decide) (by decide) (by decide) rfl rfl rfl rfl (Or.inl rfl)

/-! Aggregation helpers, and the add/update round-trip claims. -/

theorem if_isEmpty_getD (vs : List String) :
    (if vs.isEmpty then (none : Option (List String)) else some vs).getD [] = vs := by
  by_cases h : vs.isEmpty = true
  · rw [if_pos h]
    rw [List.isEmpty_iff] at h
    rw [h]
    rfl
  · rw [if_neg h]
    rfl

theorem rowsOf_filter_self (pid : Nat) (tp : String) (vals : List String) :
    (rowsOf pid tp vals).filter (fun c => c.person_id == pid && c.type == tp) =
      rowsOf pid tp vals := by
  apply List.filter_eq_self.mpr
  intro c hc
  unfold rowsOf at hc
  rw [List.mem_map] at hc
  obtain ⟨v, hv, rfl⟩ := hc
  simp

theorem rowsOf_filter_ne (pid : Nat) (tp tp2 : String) (vals : List String) (h : tp ≠ tp2) :
    (rowsOf pid tp vals).filter (fun c => c.person_id == pid && c.type == tp2) = [] := by
  rw [List.filter_eq_nil_iff]
  intro c hc
  unfold rowsOf at hc
  rw [List.mem_map] at hc
  obtain ⟨v, hv, rfl⟩ := hc
  simp [h]

theorem rowsOf_map_value (pid : Nat) (tp : String) (vals : List String) :
    (rowsOf pid tp vals).map (fun c => c.value) = vals := by
  unfold rowsOf
  rw [List.map_map]
  have hc : ((fun c : ContactRow => c.value) ∘ fun v => ContactRow.mk pid tp v) = id := rfl
  rw [hc, List.map_id]

theorem newContacts_mobile (pid : Nat) (r : RecordInput) :
    ((newContactRows pid r).filter
      (fun c => c.person_id == pid && c.type == "mobile")).map (fun c => c.value) =
      r.mobile_numbers := by
  unfold newContactRows
  rw [List.filter_append, List.filter_append, List.filter_append, rowsOf_filter_self,
    rowsOf_filter_ne pid "whatsapp" "mobile" _ (by decide),
    rowsOf_filter_ne pid "facebook" "mobile" _ (by decide),
    rowsOf_filter_ne pid "website" "mobile" _ (by decide)]
  simp [rowsOf_map_value]

theorem newContacts_whatsapp (pid : Nat) (r : RecordInput) :
    ((newContactRows pid r).filter
      (fun c => c.person_id == pid && c.type == "whatsapp")).map (fun c => c.value) =
      r.whatsapp_numbers := by
  unfold newContactRows
  rw [List.filter_append, List.filter_append, List.filter_append, rowsOf_filter_self,
    rowsOf_filter_ne pid "mobile" "whatsapp" _ (by decide),
    rowsOf_filter_ne pid "facebook" "whatsapp" _ (by decide),
    rowsOf_filter_ne pid "website" "whatsapp" _ (by decide)]
  simp [rowsOf_map_value]

theorem newContacts_facebook (pid : Nat) (r : RecordInput) :
    ((newContactRows pid r).filter
      (fun c => c.person_id == pid && c.type == "facebook")).map (fun c => c.value) =
      r.facebook_links := by
  unfold newContactRows
  rw [List.filter_append, List.filter_append, List.filter_append, rowsOf_filter_self,
    rowsOf_filter_ne pid "mobile" "facebook" _ (by decide),
    rowsOf_filter_ne pid "whatsapp" "facebook" _ (by decide),
    rowsOf_filter_ne pid "website" "facebook" _ (by decide)]
  simp [rowsOf_map_value]

theorem newContacts_website (pid : Nat) (r : RecordInput) :
    ((newContactRows pid r).filter
      (fun c => c.person_id == pid && c.type == "website")).map (fun c => c.value) =
      r.website_links := by
  unfold newContactRows
  rw [List.filter_append, List.filter_append, List.filter_append, rowsOf_filter_self,
    rowsOf_filter_ne pid "mobile" "website" _ (by decide),
    rowsOf_filter_ne pid "whatsapp" "website" _ (by decide),
    rowsOf_filter_ne pid "facebook" "website" _ (by decide)]
  simp [rowsOf_map_value]

theorem newDocs_filter_map (pid : Nat) (urls : List String) :
    ((newDocumentRows pid urls).filter
      (fun d => d.person_id == pid && d.type == "pdf")).map (fun d => d.url) = urls := by
  have hs : (newDocumentRows pid urls).filter
      (fun d => d.person_id == pid && d.type == "pdf") = newDocumentRows pid urls := by
    apply List.filter_eq_self.mpr
    intro d hd
    unfold newDocumentRows at hd
    rw [List.mem_map] at hd
    obtain ⟨u, hu, rfl⟩ := hd
    simp
  rw [hs]
  unfold newDocumentRows
  rw [List.map_map]
  have hc : ((fun d : DocumentRow => d.url) ∘ fun u => DocumentRow.mk pid u "pdf") = id := rfl
  rw [hc, List.map_id]

theorem old_contacts_vanish (st : DBState) (pid : Nat)
    (h : ∀ c ∈ st.contact_info, c.person_id ≠ pid) (tp : String) :
    st.contact_info.filter (fun c => c.person_id == pid && c.type == tp) = [] := by
  rw [List.filter_eq_nil_iff]
  intro c hc
  simp [h c hc]

theorem old_documents_vanish (st : DBState) (pid : Nat)
    (h : ∀ d ∈ st.documents, d.person_id ≠ pid) :
    st.documents.filter (fun d => d.person_id == pid && d.type == "pdf") = [] := by
  rw [List.filter_eq_nil_iff]
  intro d hd
  simp [h d hd]

theorem mem_filterTruthy_dedup (l : List String) (hl : ∀ v ∈ l, v ≠ "") (v : String) :
    v ∈ filterTruthy l.dedup ↔ v ∈ l := by
  unfold filterTruthy
  rw [List.mem_filter, List.mem_dedup]
  constructor
  · exact fun h => h.1
  · intro h
    refine ⟨h, ?_⟩
    simpa using hl v h

theorem nodup_filterTruthy_dedup (l : List String) : (filterTruthy l.dedup).Nodup :=
  List.Nodup.filter _ (List.nodup_dedup l)

theorem find_append_last (l : List PersonRow) (p : PersonRow) (i : Nat) (hip : p.id = i)
    (h : ∀ q ∈ l, (q.id == i) = false) :
    (l ++ [p]).find? (fun q => q.id == i) = some p := by
  induction l with
  | nil =>
    rw [List.nil_append]
    exact List.find?_cons_of_pos _ (by simp [hip])
  | cons a l ih =>
    rw [List.cons_append, List.find?_cons_of_neg _ (by simp [h a (List.mem_cons_self a l)])]
    exact ih fun q hq => h q (List.mem_cons_of_mem a hq)

/-- C1 (amended): for every well-formed store and every valid payload
(each contact kind non-empty — otherwise getRecord raises, see C2 — and no
falsy values), getRecord(addRecord(P)) returns the submitted record: id
and created_at populated, every scalar field equal to the payload, and
each child list equal AS A SET to the submitted list — the DISTINCT
aggregation collapses duplicates, so multiset equality fails (see the
counterexample), set equality is what holds. -/
theorem add_then_get (st : DBState) (r : RecordInput) (hwf : WF st) (hv : ValidPayload r) :
    (add_record st r).2 = some st.next_person_id ∧
    ∃ out, get_record (add_record st r).1 st.next_person_id = .ok (some out) ∧
      out.id = st.next_person_id ∧ out.created_at = st.clock ∧
      out.full_name = r.full_name ∧ out.father_name = r.father_name ∧
      out.mother_name = r.mother_name ∧ out.dob = r.dob ∧ out.gender = r.gender ∧
      out.nid = r.nid ∧ out.voter_no = r.voter_no ∧
      out.permanent_address = r.permanent_address ∧
      out.present_address = r.present_address ∧ out.image_data = r.image_data ∧
      out.description = r.description ∧
      (∀ v, v ∈ out.mobile_numbers ↔ v ∈ r.mobile_numbers) ∧ out.mobile_numbers.Nodup ∧
      (∀ v, v ∈ out.whatsapp_numbers ↔ v ∈ r.whatsapp_numbers) ∧ out.whatsapp_numbers.Nodup ∧
      (∀ v, v ∈ out.facebook_links ↔ v ∈ r.facebook_links) ∧ out.facebook_links.Nodup ∧
      (∀ v, v ∈ out.website_links ↔ v ∈ r.website_links) ∧ out.website_links.Nodup ∧
      (∀ v, v ∈ out.pdf_urls ↔ v ∈ r.pdf_urls.getD []) ∧ out.pdf_urls.Nodup := by
  obtain ⟨hbound, hfkc, hfkd⟩ := hwf
  obtain ⟨hm, hw, hfb, hwb, hmv, hwv, hfv, hsv, hpv, himg⟩ := hv
  have hocn : ∀ c ∈ st.contact_info, c.person_id ≠ st.next_person_id := by
    intro c hc
    obtain ⟨p, hp, hpe⟩ := hfkc c hc
    rw [← hpe]
    exact Nat.ne_of_lt (hbound p hp)
  have hodn : ∀ d ∈ st.documents, d.person_id ≠ st.next_person_id := by
    intro d hd
    obtain ⟨p, hp, hpe⟩ := hfkd d hd
    rw [← hpe]
    exact Nat.ne_of_lt (hbound p hp)
  have hpersons : (add_record st r).1.persons = st.persons ++ [newPerson st r] := rfl
  have hcontacts : (add_record st r).1.contact_info =
      st.contact_info ++ newContactRows st.next_person_id r := rfl
  have hdocsst : (add_record st r).1.documents =
      st.documents ++ newDocumentRows st.next_person_id (r.pdf_urls.getD []) := rfl
  have hfind : (add_record st r).1.persons.find? (fun p => p.id == st.next_person_id) =
      some (newPerson st r) := by
    rw [hpersons]
    exact find_append_last st.persons (newPerson st r) st.next_person_id rfl
      (fun q hq => by simp [Nat.ne_of_lt (hbound q hq)])
  have hvals : ∀ tp vals,
      ((newContactRows st.next_person_id r).filter
        (fun c => c.person_id == st.next_person_id && c.type == tp)).map (fun c => c.value) =
          vals →
      contactValuesOf (add_record st r).1 st.next_person_id tp = vals.dedup := by
    intro tp vals hnew
    unfold contactValuesOf
    rw [hcontacts, List.filter_append, old_contacts_vanish st st.next_person_id hocn tp,
      List.nil_append, hnew]
  have haggm : aggContacts (add_record st r).1 st.next_person_id "mobile" =
      some r.mobile_numbers.dedup := by
    unfold aggContacts
    rw [hvals "mobile" r.mobile_numbers (newContacts_mobile _ r)]
    rw [if_neg (by simp [List.isEmpty_iff, List.dedup_eq_nil, hm])]
  have haggw : aggContacts (add_record st r).1 st.next_person_id "whatsapp" =
      some r.whatsapp_numbers.dedup := by
    unfold aggContacts
    rw [hvals "whatsapp" r.whatsapp_numbers (newContacts_whatsapp _ r)]
    rw [if_neg (by simp [List.isEmpty_iff, List.dedup_eq_nil, hw])]
  have haggf : aggContacts (add_record st r).1 st.next_person_id "facebook" =
      some r.facebook_links.dedup := by
    unfold aggContacts
    rw [hvals "facebook" r.facebook_links (newContacts_facebook _ r)]
    rw [if_neg (by simp [List.isEmpty_iff, List.dedup_eq_nil, hfb])]
  have haggs : aggContacts (add_record st r).1 st.next_person_id "website" =
      some r.website_links.dedup := by
    unfold aggContacts
    rw [hvals "website" r.website_links (newContacts_website _ r)]
    rw [if_neg (by simp [List.isEmpty_iff, List.dedup_eq_nil, hwb])]
  have haggd : (aggDocs (add_record st r).1 st.next_person_id).getD [] =
      (r.pdf_urls.getD []).dedup := by
    unfold aggDocs
    rw [hdocsst, List.filter_append, old_documents_vanish st st.next_person_id hodn,
      List.nil_append, newDocs_filter_map, if_isEmpty_getD]
  have hget : get_record (add_record st r).1 st.next_person_id = .ok (some
      { id := st.next_person_id, full_name := r.full_name, father_name := r.father_name,
        mother_name := r.mother_name, dob := r.dob, gender := r.gender, nid := r.nid,
        voter_no := r.voter_no, permanent_address := r.permanent_address,
        present_address := r.present_address, image_data := pyTruthyJson r.image_data,
        description := r.description, created_at := st.clock,
        mobile_numbers := filterTruthy r.mobile_numbers.dedup,
        whatsapp_numbers := filterTruthy r.whatsapp_numbers.dedup,
        facebook_links := filterTruthy r.facebook_links.dedup,
        website_links := filterTruthy r.website_links.dedup,
        pdf_urls := filterTruthy (r.pdf_urls.getD []).dedup }) := by
    unfold get_record get_record_op
    rw [hfind, haggm, haggw, haggf, haggs, haggd]
    rfl
  refine ⟨rfl, ?_⟩
  refine ⟨_, hget, rfl, rfl, rfl, rfl, rfl, rfl, rfl, rfl, rfl, rfl, rfl, himg, rfl,
    mem_filterTruthy_dedup r.mobile_numbers hmv, nodup_filterTruthy_dedup _,
    mem_filterTruthy_dedup r.whatsapp_numbers hwv, nodup_filterTruthy_dedup _,
    mem_filterTruthy_dedup r.facebook_links hfv, nodup_filterTruthy_dedup _,
    mem_filterTruthy_dedup r.website_links hsv, nodup_filterTruthy_dedup _,
    mem_filterTruthy_dedup (r.pdf_urls.getD []) hpv, nodup_filterTruthy_dedup _⟩

/-- C1 witness: the round trip on a concrete valid payload. -/
theorem add_then_get_witness :
    (add_record initialState basePayload).2 = some 1 ∧
    ∃ out, get_record (add_record initialState basePayload).1 1 = .ok (some out) ∧
      out.id = 1 ∧ out.created_at = 0 ∧
      out.full_name = "A" ∧ out.father_name = "F" ∧ out.mother_name = "M" ∧
      out.dob = "2000-01-01" ∧ out.gender = "Male" ∧ out.nid = "N1" ∧
      out.voter_no = none ∧ out.permanent_address = "P" ∧ out.present_address = "Q" ∧
      out.image_data = none ∧ out.description = none ∧
      (∀ v, v ∈ out.mobile_numbers ↔ v ∈ ["m"]) ∧ out.mobile_numbers.Nodup ∧
      (∀ v, v ∈ out.whatsapp_numbers ↔ v ∈ ["w"]) ∧ out.whatsapp_numbers.Nodup ∧
      (∀ v, v ∈ out.facebook_links ↔ v ∈ ["f"]) ∧ out.facebook_links.Nodup ∧
      (∀ v, v ∈ out.website_links ↔ v ∈ ["s"]) ∧ out.website_links.Nodup ∧
      (∀ v, v ∈ out.pdf_urls ↔ v ∈ ["u"]) ∧ out.pdf_urls.Nodup :=
  add_then_get initialState basePayload (by decide) (by decide)

/-- C1 counterexample: the mobile number "1" submitted twice comes back
once — the DISTINCT aggregation collapses duplicates, so the retrieved
child list is not multiset-equal to the submitted one. -/
theorem duplicate_values_collapse :
    dupPayload.mobile_numbers = ["1", "1"] ∧
    ((get_record stDup 1).toOption.join.map (fun o => o.mobile_numbers)) = some ["1"] ∧
    ¬ (["1"] : List String).Perm ["1", "1"] :=
  ⟨rfl, rfl, by decide⟩

theorem find_map_update (l : List PersonRow) (rid : Nat) (r : RecordInput)
    (h : (l.any fun p => p.id == rid) = true) :
    ∃ p0, p0 ∈ l ∧ p0.id = rid ∧
      (l.map fun p => if p.id == rid then updateScalars p r else p).find?
        (fun p => p.id == rid) = some (updateScalars p0 r) := by
  induction l with
  | nil => simp at h
  | cons a l ih =>
    by_cases ha : (a.id == rid) = true
    · refine ⟨a, List.mem_cons_self a l, by simpa using ha, ?_⟩
      rw [List.map_cons, if_pos ha]
      exact List.find?_cons_of_pos _ (by simpa [updateScalars] using ha)
    · have h2 : (l.any fun p => p.id == rid) = true := by
        rcases List.any_eq_true.mp h with ⟨x, hx, hpx⟩
        rcases List.mem_cons.mp hx with rfl | hx2
        · exact absurd hpx ha
        · exact List.any_eq_true.mpr ⟨x, hx2, hpx⟩
      obtain ⟨p0, hp0, hid, hfind⟩ := ih h2
      refine ⟨p0, List.mem_cons_of_mem a hp0, hid, ?_⟩
      rw [List.map_cons, if_neg ha, List.find?_cons_of_neg _ (by simpa using ha)]
      exact hfind

theorem filtered_out_vanish (cs : List ContactRow) (rid : Nat) (tp : String) :
    ((cs.filter fun c => !(c.person_id == rid)).filter
      (fun c => c.person_id == rid && c.type == tp)) = [] := by
  rw [List.filter_eq_nil_iff]
  intro c hc
  rw [List.mem_filter] at hc
  obtain ⟨_, hc2⟩ := hc
  simp at hc2
  simp [hc2]

theorem filtered_docs_vanish (ds : List DocumentRow) (rid : Nat) :
    ((ds.filter fun d => !(d.person_id == rid)).filter
      (fun d => d.person_id == rid && d.type == "pdf")) = [] := by
  rw [List.filter_eq_nil_iff]
  intro d hd
  rw [List.mem_filter] at hd
  obtain ⟨_, hd2⟩ := hd
  simp at hd2
  simp [hd2]

/-- C4 (amended): updating an EXISTING person with a payload whose
pdf_urls key is present and whose contact kinds are non-empty with no
falsy values rewrites all scalar columns and replaces the children
wholesale: a subsequent getRecord returns exactly the new scalars and, as
sets, exactly the new children — no residue of the pre-update children.
When the pdf_urls key is absent the document rows are NOT replaced (see
the counterexample), and duplicates are collapsed as in C1. -/
theorem update_then_get (st : DBState) (rid : Nat) (r : RecordInput) (urls : List String)
    (hex : (st.persons.any fun p => p.id == rid) = true)
    (hv : ValidPayload r) (hpdf : r.pdf_urls = some urls) :
    (update_record st rid r).2 = true ∧
    ∃ out, get_record (update_record st rid r).1 rid = .ok (some out) ∧
      out.id = rid ∧
      out.full_name = r.full_name ∧ out.father_name = r.father_name ∧
      out.mother_name = r.mother_name ∧ out.dob = r.dob ∧ out.gender = r.gender ∧
      out.nid = r.nid ∧ out.voter_no = r.voter_no ∧
      out.permanent_address = r.permanent_address ∧
      out.present_address = r.present_address ∧ out.image_data = r.image_data ∧
      out.description = r.description ∧
      (∀ v, v ∈ out.mobile_numbers ↔ v ∈ r.mobile_numbers) ∧ out.mobile_numbers.Nodup ∧
      (∀ v, v ∈ out.whatsapp_numbers ↔ v ∈ r.whatsapp_numbers) ∧ out.whatsapp_numbers.Nodup ∧
      (∀ v, v ∈ out.facebook_links ↔ v ∈ r.facebook_links) ∧ out.facebook_links.Nodup ∧
      (∀ v, v ∈ out.website_links ↔ v ∈ r.website_links) ∧ out.website_links.Nodup ∧
      (∀ v, v ∈ out.pdf_urls ↔ v ∈ urls) ∧ out.pdf_urls.Nodup := by
  obtain ⟨hm, hw, hfb, hwb, hmv, hwv, hfv, hsv, hpv, himg⟩ := hv
  rw [hpdf] at hpv
  have hupd : update_record st rid r = (updatedState st rid r, true) := by
    unfold update_record
    rw [update_record_op_found st rid r hex]
  rw [hupd]
  refine ⟨rfl, ?_⟩
  obtain ⟨p0, hp0mem, hp0id, hfind0⟩ := find_map_update st.persons rid r hex
  have hfind : (updatedState st rid r).persons.find? (fun p => p.id == rid) =
      some (updateScalars p0 r) := hfind0
  have hcont2 : (updatedState st rid r).contact_info =
      st.contact_info.filter (fun c => !(c.person_id == rid)) ++ newContactRows rid r := rfl
  have hdocs2 : (updatedState st rid r).documents =
      st.documents.filter (fun d => !(d.person_id == rid)) ++ newDocumentRows rid urls := by
    have h0 : (updatedState st rid r).documents =
        match r.pdf_urls with
        | none => st.documents
        | some us =>
          st.documents.filter (fun d => !(d.person_id == rid)) ++ newDocumentRows rid us := rfl
    rw [h0, hpdf]
  have hvals : ∀ tp vals,
      ((newContactRows rid r).filter
        (fun c => c.person_id == rid && c.type == tp)).map (fun c => c.value) = vals →
      contactValuesOf (updatedState st rid r) rid tp = vals.dedup := by
    intro tp vals hnew
    unfold contactValuesOf
    rw [hcont2, List.filter_append, filtered_out_vanish, List.nil_append, hnew]
  have haggm : aggContacts (updatedState st rid r) rid "mobile" =
      some r.mobile_numbers.dedup := by
    unfold aggContacts
    rw [hvals "mobile" r.mobile_numbers (newContacts_mobile rid r)]
    rw [if_neg (by simp [List.isEmpty_iff, List.dedup_eq_nil, hm])]
  have haggw : aggContacts (updatedState st rid r) rid "whatsapp" =
      some r.whatsapp_numbers.dedup := by
    unfold aggContacts
    rw [hvals "whatsapp" r.whatsapp_numbers (newContacts_whatsapp rid r)]
    rw [if_neg (by simp [List.isEmpty_iff, List.dedup_eq_nil, hw])]
  have haggf : aggContacts (updatedState st rid r) rid "facebook" =
      some r.facebook_links.dedup := by
    unfold aggContacts
    rw [hvals "facebook" r.facebook_links (newContacts_facebook rid r)]
    rw [if_neg (by simp [List.isEmpty_iff, List.dedup_eq_nil, hfb])]
  have haggs : aggContacts (updatedState st rid r) rid "website" =
      some r.website_links.dedup := by
    unfold aggContacts
    rw [hvals "website" r.website_links (newContacts_website rid r)]
    rw [if_neg (by simp [List.isEmpty_iff, List.dedup_eq_nil, hwb])]
  have haggd : (aggDocs (updatedState st rid r) rid).getD [] = urls.dedup := by
    unfold aggDocs
    rw [hdocs2, List.filter_append, filtered_docs_vanish, List.nil_append,
      newDocs_filter_map, if_isEmpty_getD]
  have hget : get_record (updatedState st rid r) rid = .ok (some
      { id := p0.id, full_name := r.full_name, father_name := r.father_name,
        mother_name := r.mother_name, dob := r.dob, gender := r.gender, nid := r.nid,
        voter_no := r.voter_no, permanent_address := r.permanent_address,
        present_address := r.present_address, image_data := pyTruthyJson r.image_data,
        description := r.description, created_at := p0.created_at,
        mobile_numbers := filterTruthy r.mobile_numbers.dedup,
        whatsapp_numbers := filterTruthy r.whatsapp_numbers.dedup,
        facebook_links := filterTruthy r.facebook_links.dedup,
        website_links := filterTruthy r.website_links.dedup,
        pdf_urls := filterTruthy urls.dedup }) := by
    unfold get_record get_record_op
    rw [hfind, haggm, haggw, haggf, haggs, haggd]
    rfl
  refine ⟨_, hget, hp0id, rfl, rfl, rfl, rfl, rfl, rfl, rfl, rfl, rfl, himg, rfl,
    mem_filterTruthy_dedup r.mobile_numbers hmv, nodup_filterTruthy_dedup _,
    mem_filterTruthy_dedup r.whatsapp_numbers hwv, nodup_filterTruthy_dedup _,
    mem_filterTruthy_dedup r.facebook_links hfv, nodup_filterTruthy_dedup _,
    mem_filterTruthy_dedup r.website_links hsv, nodup_filterTruthy_dedup _,
    mem_filterTruthy_dedup urls hpv, nodup_filterTruthy_dedup _⟩

/-- C4 witness: a full update of the only person in a concrete store. -/
theorem update_then_get_witness :
    (update_record stBase 1 updPayload).2 = true ∧
    ∃ out, get_record (update_record stBase 1 updPayload).1 1 = .ok (some out) ∧
      out.id = 1 ∧
      out.full_name = "B" ∧ out.father_name = "F2" ∧ out.mother_name = "M2" ∧
      out.dob = "2001-02-02" ∧ out.gender = "Female" ∧ out.nid = "N2" ∧
      out.voter_no = some "V2" ∧ out.permanent_address = "P2" ∧
      out.present_address = "Q2" ∧ out.image_data = some "img" ∧
      out.description = some "d2" ∧
      (∀ v, v ∈ out.mobile_numbers ↔ v ∈ ["m2"]) ∧ out.mobile_numbers.Nodup ∧
      (∀ v, v ∈ out.whatsapp_numbers ↔ v ∈ ["w2"]) ∧ out.whatsapp_numbers.Nodup ∧
      (∀ v, v ∈ out.facebook_links ↔ v ∈ ["f2"]) ∧ out.facebook_links.Nodup ∧
      (∀ v, v ∈ out.website_links ↔ v ∈ ["s2"]) ∧ out.website_links.Nodup ∧
      (∀ v, v ∈ out.pdf_urls ↔ v ∈ ["u2"]) ∧ out.pdf_urls.Nodup :=
  update_then_get stBase 1 updPayload ["u2"] (by decide) (by decide) rfl

/-- C4 counterexample: when the update payload's pdf_urls key is absent,
the pre-update document rows survive: the update reports success and a
subsequent getRecord still returns the OLD pdf url, residue the claim
rules out. -/
theorem update_absent_pdf_residue :
    basePayload.pdf_urls = some ["u"] ∧
    noPdfUpdate.pdf_urls = none ∧
    (update_record stBase 1 noPdfUpdate).2 = true ∧
    ((get_record (update_record stBase 1 noPdfUpdate).1 1).toOption.join.map
      (fun o => o.pdf_urls)) = some ["u"] :=
  ⟨rfl, rfl, rfl, rfl⟩

/-! Membership and ordering of the list-returning queries. -/

theorem sorted_build (st : DBState) (l : List PersonRow) :
    ((List.insertionSort createdDescRel l).map (buildRow st)).Pairwise
      (fun a b => b.created_at ≤ a.created_at) := by
  rw [List.pairwise_map]
  exact (List.sorted_insertionSort createdDescRel l).imp (fun h => h)

theorem mem_get_all (st : DBState) (out : OutRecord) :
    out ∈ get_all_records st ↔ ∃ p ∈ st.persons, out = buildRow st p := by
  unfold get_all_records get_all_records_op
  rw [List.mem_map]
  constructor
  · rintro ⟨p, hp, rfl⟩
    exact ⟨p, ((List.perm_insertionSort createdDescRel st.persons).mem_iff).mp hp, rfl⟩
  · rintro ⟨p, hp, rfl⟩
    exact ⟨p, ((List.perm_insertionSort createdDescRel st.persons).mem_iff).mpr hp, rfl⟩

theorem mem_search (st : DBState) (q : String) (out : OutRecord) :
    out ∈ search_records st q ↔
      ∃ p ∈ st.persons, ilike ("%" ++ q ++ "%") p.full_name = true ∧ out = buildRow st p := by
  unfold search_records search_records_op
  rw [List.mem_map]
  constructor
  · rintro ⟨p, hp, rfl⟩
    have hp2 := ((List.perm_insertionSort createdDescRel _).mem_iff).mp hp
    rw [List.mem_filter] at hp2
    exact ⟨p, hp2.1, hp2.2, rfl⟩
  · rintro ⟨p, hp, hpred, rfl⟩
    refine ⟨p, ?_, rfl⟩
    exact ((List.perm_insertionSort createdDescRel _).mem_iff).mpr
      (List.mem_filter.mpr ⟨hp, hpred⟩)

/-- C6 (amended): for a query free of the LIKE metacharacters percent,
underscore and backslash, searchRecords returns exactly the getAllRecords
rows whose full_name contains the query case-insensitively, newest first.
For queries containing metacharacters the ILIKE pattern is NOT substring
containment (see the counterexample). -/
theorem search_records_spec (st : DBState) (q : String) (out : OutRecord) (h : noMeta q) :
    (out ∈ search_records st q ↔
      out ∈ get_all_records st ∧ containsCI q out.full_name = true) ∧
    (search_records st q).Pairwise (fun a b => b.created_at ≤ a.created_at) := by
  constructor
  · rw [mem_search, mem_get_all]
    constructor
    · rintro ⟨p, hp, hpred, rfl⟩
      refine ⟨⟨p, hp, rfl⟩, ?_⟩
      have hfn : (buildRow st p).full_name = p.full_name := rfl
      rw [hfn, ← ilike_eq_containsCI q p.full_name h]
      exact hpred
    · rintro ⟨⟨p, hp, rfl⟩, hci⟩
      refine ⟨p, hp, ?_, rfl⟩
      have hfn : (buildRow st p).full_name = p.full_name := rfl
      rw [hfn] at hci
      rw [ilike_eq_containsCI q p.full_name h]
      exact hci
  · unfold search_records search_records_op
    exact sorted_build st _

/-- C6 witness. -/
theorem search_records_spec_witness :
    ((outBase ∈ search_records stBase "a") ↔
      outBase ∈ get_all_records stBase ∧ containsCI "a" outBase.full_name = true) ∧
    (search_records stBase "a").Pairwise (fun a b => b.created_at ≤ a.created_at) :=
  search_records_spec stBase "a" outBase (by decide)

/-- C6 counterexample: the underscore in the query acts as a wildcard:
searching "a_b" returns the person named "axb" although "a_b" is not a
substring of "axb" — searchRecords is not substring search on queries
holding LIKE metacharacters. -/
theorem search_wildcard_counterexample :
    stAxb.persons.map (fun p => p.full_name) = ["axb"] ∧
    (search_records stAxb "a_b").map (fun o => o.id) = [1] ∧
    containsCI "a_b" "axb" = false :=
  ⟨rfl, by decide, by decide⟩

/-- C7: getAllRecords lists all persons (their ids are a permutation of
the table's), ordered by created_at descending — inserting A then B then C
from a fresh store yields ids [3, 2, 1], i.e. [C, B, A] — and a person
with no child rows of some kind carries an empty list for that kind in the
returned row, never a null. -/
theorem get_all_records_spec (rA rB rC : RecordInput) (st : DBState) (out : OutRecord) :
    ((get_all_records (addedThree rA rB rC)).map (fun o => o.id) = [3, 2, 1]) ∧
    (get_all_records st).Pairwise (fun a b => b.created_at ≤ a.created_at) ∧
    ((get_all_records st).map (fun o => o.id)).Perm (st.persons.map (fun p => p.id)) ∧
    (out ∈ get_all_records st →
      (st.contact_info.filter (fun c => c.person_id == out.id && c.type == "mobile") = [] →
        out.mobile_numbers = []) ∧
      (st.contact_info.filter (fun c => c.person_id == out.id && c.type == "whatsapp") = [] →
        out.whatsapp_numbers = []) ∧
      (st.contact_info.filter (fun c => c.person_id == out.id && c.type == "facebook") = [] →
        out.facebook_links = []) ∧
      (st.contact_info.filter (fun c => c.person_id == out.id && c.type == "website") = [] →
        out.website_links = []) ∧
      (st.documents.filter (fun d => d.person_id == out.id && d.type == "pdf") = [] →
        out.pdf_urls = [])) := by
  refine ⟨rfl, ?_, ?_, ?_⟩
  · unfold get_all_records get_all_records_op
    exact sorted_build st _
  · unfold get_all_records get_all_records_op
    rw [List.map_map]
    exact (List.perm_insertionSort createdDescRel st.persons).map fun p => p.id
  · intro hmem
    rw [mem_get_all] at hmem
    obtain ⟨p, hp, rfl⟩ := hmem
    have hid : (buildRow st p).id = p.id := rfl
    rw [hid]
    refine ⟨?_, ?_, ?_, ?_, ?_⟩
    · intro hfilt
      show filterTruthy ((aggContacts st p.id "mobile").getD []) = []
      unfold aggContacts contactValuesOf
      rw [hfilt]
      rfl
    · intro hfilt
      show filterTruthy ((aggContacts st p.id "whatsapp").getD []) = []
      unfold aggContacts contactValuesOf
      rw [hfilt]
      rfl
    · intro hfilt
      show filterTruthy ((aggContacts st p.id "facebook").getD []) = []
      unfold aggContacts contactValuesOf
      rw [hfilt]
      rfl
    · intro hfilt
      show filterTruthy ((aggContacts st p.id "website").getD []) = []
      unfold aggContacts contactValuesOf
      rw [hfilt]
      rfl
    · intro hfilt
      show filterTruthy ((aggDocs st p.id).getD []) = []
      unfold aggDocs
      rw [hfilt]
      rfl

/-- C7 witness: concrete three-insert store; the oldest returned row is
the person inserted first, whose missing mobile numbers come back as the
empty list. -/
theorem get_all_records_spec_witness :
    ((get_all_records stThree).map (fun o => o.id) = [3, 2, 1]) ∧
    outNoMobile.mobile_numbers = [] := by
  have h := get_all_records_spec noMobilePayload basePayload basePayload stThree outNoMobile
  exact ⟨h.1, (h.2.2.2 (by decide)).1 (by decide)⟩
